import Mathlib

/-!
Shallow embedding of `radon/raw.py` (raw source-code metrics).

The module under verification drives an external tokenizer over a source
text, groups physical lines into lexical units, classifies every line as
blank / source / comment / docstring, counts logical lines, and returns a
`Module` record.  The external tokenizer (the host language `tokenize`
library) is not part of the repository; following the design notes of the
specification it is modelled as an injected capability
`Tokenizer : String → Except Unit (List Token)`, where `Except.error`
stands for the recoverable `TokenError` (lexically incomplete buffer).
All functions of `raw.py` are translated one-to-one below and keep their
source names.
-/

namespace Radon

/-- Token kind codes, mirroring the constants the source takes from the
tokenize library (`COMMENT`, `OP`, `NL`, `EM = ENDMARKER`, plus the kinds
used directly: `STRING`, `NEWLINE`, `NAME`, `NUMBER`, `ERRORTOKEN`).
Only distinctness of the codes matters. -/
def ENDMARKER : Nat := 0

def NAME : Nat := 1

def NUMBER : Nat := 2

def STRING : Nat := 3

def NEWLINE : Nat := 4

def OP : Nat := 54

def ERRORTOKEN : Nat := 59

def COMMENT : Nat := 60

def NL : Nat := 61

/-- Alias used by the source (`EM = tokenize.ENDMARKER`). -/
def EM : Nat := ENDMARKER

/-- One token of the external tokenizer: kind code, text, start and end
positions as (row, col) with 1-based rows and 0-based columns, as the
tokenize library reports them.  The fifth component of the library tuple
(the raw line) is never used by the source and is omitted. -/
structure Token where
  kind : Nat
  text : String
  start : Nat × Nat
  stop : Nat × Nat
deriving DecidableEq

/-- Result record of `analyze` (the namedtuple `Module` of the source):
`loc, lloc, sloc, comments, multi, blank, single_comments`.  The derived
field `loc` is an integer because it is computed by subtraction. -/
structure Module where
  loc : Int
  lloc : Nat
  sloc : Nat
  comments : Nat
  multi : Nat
  blank : Nat
  single_comments : Nat
deriving DecidableEq

/-- Running totals of `analyze` (line 170 of the source:
`lloc = comments = single_comments = multi = blank = sloc = 0`). -/
structure Metrics where
  lloc : Nat
  comments : Nat
  single_comments : Nat
  multi : Nat
  blank : Nat
  sloc : Nat
deriving DecidableEq

/-- Initial accumulator: all counters zero. -/
def Metrics.init : Metrics := ⟨0, 0, 0, 0, 0, 0⟩

/-- Whitespace characters removed by the string strip method of the host
language (ASCII whitespace). -/
def isSpace (c : Char) : Bool :=
  c = ' ' || c = '\t' || c = '\n' || c = '\r' || c = '\x0b' || c = '\x0c'

/-- Model of the strip method: remove leading and trailing whitespace. -/
def pyStrip (s : String) : String :=
  String.mk (((s.data.dropWhile isSpace).reverse.dropWhile isSpace).reverse)

/-- Helper for `splitlines`: split a character list at newline characters;
a terminal newline produces no trailing empty line. -/
def splitlinesAux : List Char → List Char → List String
  | [], [] => []
  | [], cur => [String.mk cur.reverse]
  | '\n' :: rest, cur => String.mk cur.reverse :: splitlinesAux rest []
  | c :: rest, cur => splitlinesAux rest (c :: cur)

/-- Model of the splitlines method for newline-separated text (the only
line separator occurring in the sources considered here): the empty text
yields no lines, and a terminal newline yields no trailing empty line. -/
def splitlines (s : String) : List String :=
  splitlinesAux s.data []

/-- The external tokenizer capability (`tokenize.generate_tokens` wrapped
by `_generate`): either a token list or the recoverable incompleteness
signal `TokenError`, modelled as `Except.error ()`. -/
def Tokenizer : Type := String → Except Unit (List Token)

/-- Translation of `_less_tokens`: drop the tokens whose kind is listed in
`remove`. -/
def _less_tokens (tokens : List Token) (remove : List Nat) : List Token :=
  tokens.filter (fun t => !(remove.contains t.kind))

/-- Translation of `_find`: position of the rightmost token matching the
(kind, value) pair; the source raises ValueError when absent, modelled as
`none`. -/
def _find (tokens : List Token) (token : Nat) (value : String) : Option Nat :=
  match tokens.reverse.findIdx? (fun t => t.kind == token && t.text == value) with
  | some index => some (tokens.length - index - 1)
  | none => none

/-- Translation of `_split_tokens`: split the token list on every token
matching the (kind, value) pair, dropping the separators and keeping
empty segments. -/
def _split_tokens : List Token → Nat → String → List (List Token)
  | [], _, _ => [[]]
  | t :: ts, token, value =>
    if t.kind = token ∧ t.text = value then
      [] :: _split_tokens ts token value
    else
      match _split_tokens ts token value with
      | [] => [[t]]
      | seg :: rest => (t :: seg) :: rest

/-- Translation of the inner function `aux` of `_logical`: logical lines
contributed by one statement segment.  The source computes
`2 - (token_pos == len(processed) - 2)` with integer semantics for the
boolean, and `len(processed) - 2` is an integer that may be negative,
hence the cast. -/
def logicalAux (sub_tokens : List Token) : Nat :=
  let processed := _less_tokens sub_tokens [COMMENT]
  match _find processed OP ":" with
  | some token_pos =>
    2 - (if (token_pos : Int) = (processed.length : Int) - 2 then 1 else 0)
  | none =>
    if (_less_tokens processed [NL, EM]).isEmpty then 0 else 1

/-- Translation of `_logical`: sum of `aux` over the segments obtained by
splitting on the semicolon operator token. -/
def _logical (tokens : List Token) : Nat :=
  ((_split_tokens tokens OP ";").map logicalAux).sum

/-- One tokenization attempt of the Line Assembler: a successful token
list with no error token, otherwise the retry signal (`TokenError`, or an
`ERRORTOKEN` present in the output). -/
def tokenizeClean (gen : Tokenizer) (line : String) : Option (List Token) :=
  match gen line with
  | Except.ok tokens =>
    if tokens.any (fun t => t.kind = ERRORTOKEN) then none else some tokens
  | Except.error _ => none

/-- Core loop of `_get_all_tokens`, recursing on the remaining lines:
returns the tokens, the extra lines pulled beyond the first, and the
untouched remainder of the line source; `none` models the StopIteration
raised when the source is exhausted mid-assembly. -/
def getAllTokensAux (gen : Tokenizer) : String → List String → Option (List Token × List String × List String)
  | line, [] => (tokenizeClean gen line).map (fun tokens => (tokens, [], []))
  | line, next :: rest =>
    match tokenizeClean gen line with
    | some tokens => some (tokens, [], next :: rest)
    | none =>
      match getAllTokensAux gen (line ++ "\n" ++ next) rest with
      | none => none
      | some (tokens, used, rem) => some (tokens, next :: used, rem)

/-- Translation of `_get_all_tokens`: tokens of the shortest clean
tokenization starting at `line`, together with `used_lines` (which starts
as `[line]`) and the lines left unconsumed. -/
def _get_all_tokens (gen : Tokenizer) (line : String) (lines : List String) :
    Option (List Token × List String × List String) :=
  match getAllTokensAux gen line lines with
  | none => none
  | some (tokens, used, rem) => some (tokens, line :: used, rem)

/-- Placeholder token for the positional accesses `tokens[1]` and
`tokens[-2]` of the docstring branch; unreachable for genuine token
streams, which always end with an ENDMARKER and hence have at least two
tokens whenever the head is a STRING. -/
def dummyToken : Token := ⟨999, "", (0, 0), (0, 0)⟩

/-- Step of the single-line-comment loop of `analyze` (lines 180-184):
every COMMENT token bumps `comments`; a COMMENT starting at column 0
bumps `single_comments` by the rows it spans. -/
def commentStep (a : Metrics) (t : Token) : Metrics :=
  if t.kind = COMMENT then
    let a :=
      if t.start.2 = 0 then
        { a with single_comments := a.single_comments + (t.stop.1 - t.start.1 + 1) }
      else a
    { a with comments := a.comments + 1 }
  else a

/-- Translation of the single-line-comment loop of `analyze`. -/
def commentUpdate (acc : Metrics) (tokens : List Token) : Metrics :=
  tokens.foldl commentStep acc

/-- Translation of the docstring branch of `analyze` (lines 186-199). -/
def docstringUpdate (acc : Metrics) (tokens : List Token) (parsed_lines : List String) : Metrics :=
  match tokens with
  | [] => acc
  | t0 :: _ =>
    if t0.kind = STRING then
      if (tokens.getD 1 dummyToken).kind == ENDMARKER
          || (tokens.take (tokens.length - 2)).all
              (fun t => t.kind == STRING || t.kind == NL) then
        if t0.start.2 = 0 then
          if (tokens.getD (tokens.length - 2) dummyToken).stop.1 = t0.start.1 then
            { acc with single_comments := acc.single_comments + 1 }
          else
            { acc with multi := acc.multi + (parsed_lines.filter (fun l => !(l == ""))).length }
        else acc
      else acc
    else acc

/-- Step of the blank/source loop of `analyze` (lines 201-205): a
non-empty stripped line counts toward `sloc`, an empty one toward
`blank`. -/
def slocStep (a : Metrics) (l : String) : Metrics :=
  if l = "" then { a with blank := a.blank + 1 }
  else { a with sloc := a.sloc + 1 }

/-- Translation of the blank/source loop of `analyze`. -/
def slocUpdate (acc : Metrics) (parsed_lines : List String) : Metrics :=
  parsed_lines.foldl slocStep acc

/-- Step of the logical-line loop of `analyze` (lines 207-211). -/
def llocStep (a : Metrics) (sub_tokens : List Token) : Metrics :=
  { a with lloc := a.lloc + _logical sub_tokens }

/-- Translation of the logical-line loop of `analyze`. -/
def llocUpdate (acc : Metrics) (tokens : List Token) : Metrics :=
  (_split_tokens tokens OP ";").foldl llocStep acc

/-- Body of one iteration of the loop of `analyze`, in source order:
comments, docstrings, blank/source classification, logical lines. -/
def analyzeGroup (acc : Metrics) (tokens : List Token) (parsed_lines : List String) : Metrics :=
  llocUpdate
    (slocUpdate (docstringUpdate (commentUpdate acc tokens) tokens parsed_lines) parsed_lines)
    tokens

/-- Loop of `analyze` over the stripped line source.  `lineno` is the
counter of `enumerate(lines, 1)`: because `_get_all_tokens` pulls extra
lines from the same generator that the loop enumerates, the counter
advances once per assembled token group, not once per physical line.
Exhaustion of the source inside `_get_all_tokens` becomes the
SyntaxError of line 177, modelled as `Except.error lineno`.  The fuel
argument makes the recursion structural; since every iteration consumes
at least one line, fuel equal to the number of lines is never exhausted
(the fuel-zero branch with lines remaining is unreachable from
`analyze`). -/
def analyzeLoop (gen : Tokenizer) : Nat → Nat → Metrics → List String → Except Nat Metrics
  | _, _, acc, [] => Except.ok acc
  | 0, lineno, _, _ :: _ => Except.error lineno
  | fuel + 1, lineno, acc, line :: rest =>
    match _get_all_tokens gen line rest with
    | none => Except.error lineno
    | some (tokens, parsed_lines, remaining) =>
      analyzeLoop gen fuel (lineno + 1) (analyzeGroup acc tokens parsed_lines) remaining

/-- Translation of `analyze`: strip every physical line, run the loop,
and derive `loc = sloc - multi - single_comments` (line 213 of the
source).  A SyntaxError is modelled as `Except.error` carrying the line
counter. -/
def analyze (gen : Tokenizer) (source : String) : Except Nat Module :=
  match analyzeLoop gen ((splitlines source).map pyStrip).length 1 Metrics.init
      ((splitlines source).map pyStrip) with
  | Except.error n => Except.error n
  | Except.ok a =>
    Except.ok
      { loc := (a.sloc : Int) - (a.multi : Int) - (a.single_comments : Int)
        lloc := a.lloc
        sloc := a.sloc
        comments := a.comments
        multi := a.multi
        blank := a.blank
        single_comments := a.single_comments }

/-- Token stream of the buffer `if True: x = 1`. -/
def toksIfTrue : List Token :=
  [⟨NAME, "if", (1, 0), (1, 2)⟩,
   ⟨NAME, "True", (1, 3), (1, 7)⟩,
   ⟨OP, ":", (1, 7), (1, 8)⟩,
   ⟨NAME, "x", (1, 9), (1, 10)⟩,
   ⟨OP, "=", (1, 11), (1, 12)⟩,
   ⟨NUMBER, "1", (1, 13), (1, 14)⟩,
   ⟨NEWLINE, "", (1, 14), (1, 15)⟩,
   ⟨ENDMARKER, "", (2, 0), (2, 0)⟩]

/-- Token stream of the buffer `# comment`. -/
def toksComment : List Token :=
  [⟨COMMENT, "# comment", (1, 0), (1, 9)⟩,
   ⟨NL, "", (1, 9), (1, 10)⟩,
   ⟨ENDMARKER, "", (2, 0), (2, 0)⟩]

/-- Token stream of the buffer `a = 1; b = 2`. -/
def toksSemi : List Token :=
  [⟨NAME, "a", (1, 0), (1, 1)⟩,
   ⟨OP, "=", (1, 2), (1, 3)⟩,
   ⟨NUMBER, "1", (1, 4), (1, 5)⟩,
   ⟨OP, ";", (1, 5), (1, 6)⟩,
   ⟨NAME, "b", (1, 7), (1, 8)⟩,
   ⟨OP, "=", (1, 9), (1, 10)⟩,
   ⟨NUMBER, "2", (1, 11), (1, 12)⟩,
   ⟨NEWLINE, "", (1, 12), (1, 13)⟩,
   ⟨ENDMARKER, "", (2, 0), (2, 0)⟩]

/-- Token stream of the three-line triple-quoted string buffer. -/
def toksTriple3 : List Token :=
  [⟨STRING, "\"\"\"a\nb\nc\"\"\"", (1, 0), (3, 4)⟩,
   ⟨NEWLINE, "", (3, 4), (3, 5)⟩,
   ⟨ENDMARKER, "", (4, 0), (4, 0)⟩]

/-- Token stream of the two-line triple-quoted string buffer. -/
def toksTriple2 : List Token :=
  [⟨STRING, "\"\"\"a\nb\"\"\"", (1, 0), (2, 4)⟩,
   ⟨NEWLINE, "", (2, 4), (2, 5)⟩,
   ⟨ENDMARKER, "", (3, 0), (3, 0)⟩]

/-- Modelled from the spec: the Tokenizer Adapter of section 4.1 wraps the
host language tokenize library, which is not part of this repository.  The
model reproduces the observable behaviour of that library on the concrete
buffers exercised by the claims (token kind, text, start and end
positions, the implicit trailing NEWLINE and ENDMARKER tokens), and
reports every other buffer as lexically incomplete (`TokenError`), which
is the behaviour on the intermediate buffers of an unterminated
triple-quoted string or an unclosed bracket. -/
def pyTokenize : Tokenizer := fun s =>
  if s = "if True: x = 1" then Except.ok toksIfTrue
  else if s = "# comment" then Except.ok toksComment
  else if s = "a = 1; b = 2" then Except.ok toksSemi
  else if s = "\"\"\"a\nb\nc\"\"\"" then Except.ok toksTriple3
  else if s = "\"\"\"a\nb\"\"\"" then Except.ok toksTriple2
  else Except.error ()

/-! Structural lemmas about the Line Assembler and the loop of `analyze`. -/

/-- The extra lines pulled by the assembler form a prefix of the line
source: appending them to the untouched remainder restores the source. -/
theorem getAllTokensAux_append (gen : Tokenizer) :
    ∀ (lines : List String) (line : String) (tokens : List Token) (used rem : List String),
      getAllTokensAux gen line lines = some (tokens, used, rem) →
      used ++ rem = lines := by
  intro lines
  induction lines with
  | nil =>
    intro line tokens used rem h
    cases htc : tokenizeClean gen line with
    | none => rw [getAllTokensAux, htc] at h; simp at h
    | some ts =>
      rw [getAllTokensAux, htc] at h
      simp at h
      simp [h.2.1, h.2.2]
  | cons next rest ih =>
    intro line tokens used rem h
    cases htc : tokenizeClean gen line with
    | some ts =>
      rw [getAllTokensAux, htc] at h
      simp at h
      simp [h.2.1, h.2.2]
    | none =>
      rw [getAllTokensAux, htc] at h
      cases hrec : getAllTokensAux gen (line ++ "\n" ++ next) rest with
      | none => rw [hrec] at h; simp at h
      | some trip =>
        obtain ⟨t2, u2, r2⟩ := trip
        rw [hrec] at h
        simp at h
        obtain ⟨-, h2, h3⟩ := h
        subst h2
        subst h3
        have := ih (line ++ "\n" ++ next) t2 u2 r2 hrec
        simp [this]

/-- Shape of a successful `_get_all_tokens` call: the consumed batch
starts with the popped line, and the batch plus the remainder restores
the line source. -/
theorem _get_all_tokens_spec (gen : Tokenizer) (line : String) (lines : List String)
    (tokens : List Token) (parsed rem : List String)
    (h : _get_all_tokens gen line lines = some (tokens, parsed, rem)) :
    ∃ u, parsed = line :: u ∧ u ++ rem = lines := by
  unfold _get_all_tokens at h
  cases haux : getAllTokensAux gen line lines with
  | none => rw [haux] at h; simp at h
  | some trip =>
    obtain ⟨t2, u2, r2⟩ := trip
    rw [haux] at h
    simp at h
    obtain ⟨-, h2, h3⟩ := h
    exact ⟨u2, h2.symm, by rw [← h3]; exact getAllTokensAux_append gen lines line t2 u2 r2 haux⟩

/-- The remainder left by a successful `_get_all_tokens` call is no
longer than the line source it consumed from. -/
theorem _get_all_tokens_rem_le (gen : Tokenizer) (line : String) (lines : List String)
    (tokens : List Token) (parsed rem : List String)
    (h : _get_all_tokens gen line lines = some (tokens, parsed, rem)) :
    rem.length ≤ lines.length := by
  obtain ⟨u, -, hu⟩ := _get_all_tokens_spec gen line lines tokens parsed rem h
  rw [← hu, List.length_append]
  omega

/-- The comment loop never touches `sloc` or `blank`. -/
theorem commentStep_sloc_blank (a : Metrics) (t : Token) :
    (commentStep a t).sloc = a.sloc ∧ (commentStep a t).blank = a.blank := by
  unfold commentStep
  split_ifs <;> simp

theorem commentUpdate_sloc_blank (tokens : List Token) :
    ∀ acc : Metrics, (commentUpdate acc tokens).sloc = acc.sloc ∧
      (commentUpdate acc tokens).blank = acc.blank := by
  induction tokens with
  | nil => intro acc; exact ⟨rfl, rfl⟩
  | cons t ts ih =>
    intro acc
    have hstep := commentStep_sloc_blank acc t
    have := ih (commentStep acc t)
    unfold commentUpdate at this ⊢
    rw [List.foldl_cons]
    omega

/-- The docstring branch never touches `sloc` or `blank`. -/
theorem docstringUpdate_sloc_blank (acc : Metrics) (tokens : List Token) (parsed : List String) :
    (docstringUpdate acc tokens parsed).sloc = acc.sloc ∧
      (docstringUpdate acc tokens parsed).blank = acc.blank := by
  unfold docstringUpdate
  cases tokens with
  | nil => exact ⟨rfl, rfl⟩
  | cons t0 ts =>
    dsimp only
    refine ⟨?_, ?_⟩ <;> split_ifs <;> rfl

/-- The logical-line loop never touches `sloc` or `blank`. -/
theorem llocUpdate_sloc_blank (segs : List (List Token)) :
    ∀ acc : Metrics, (segs.foldl llocStep acc).sloc = acc.sloc ∧
      (segs.foldl llocStep acc).blank = acc.blank := by
  induction segs with
  | nil => intro acc; exact ⟨rfl, rfl⟩
  | cons s ss ih =>
    intro acc
    have := ih (llocStep acc s)
    rw [List.foldl_cons]
    simpa [llocStep] using this

/-- The blank/source loop adds exactly the counts of non-empty and empty
lines of the batch to `sloc` and `blank`. -/
theorem slocUpdate_counts (parsed : List String) :
    ∀ acc : Metrics,
      (slocUpdate acc parsed).sloc = acc.sloc + (parsed.filter (fun l => !(l == ""))).length ∧
      (slocUpdate acc parsed).blank = acc.blank + (parsed.filter (fun l => l == "")).length := by
  induction parsed with
  | nil => intro acc; simp [slocUpdate]
  | cons l ls ih =>
    intro acc
    have h := ih (slocStep acc l)
    unfold slocUpdate at h ⊢
    rw [List.foldl_cons]
    by_cases hl : l = ""
    · subst hl
      simp [slocStep] at h ⊢
      omega
    · simp [slocStep, hl] at h ⊢
      omega

/-- Counting a predicate through a map. -/
theorem filter_map_length (f : String → String) (p : String → Bool) :
    ∀ l : List String, ((l.map f).filter p).length = (l.filter (fun x => p (f x))).length := by
  intro l
  induction l with
  | nil => rfl
  | cons x xs ih =>
    by_cases hx : p (f x) <;> simp [hx, ih]

/-- The non-empty lines and the empty lines of a list partition it. -/
theorem filter_empty_partition :
    ∀ l : List String,
      (l.filter (fun x => !(x == ""))).length + (l.filter (fun x => x == "")).length = l.length := by
  intro l
  induction l with
  | nil => rfl
  | cons x xs ih =>
    by_cases hx : x = "" <;> simp [hx] <;> omega

/-- Net effect of one loop iteration of `analyze` on `sloc` and `blank`. -/
theorem analyzeGroup_sloc_blank (acc : Metrics) (tokens : List Token) (parsed : List String) :
    (analyzeGroup acc tokens parsed).sloc
        = acc.sloc + (parsed.filter (fun l => !(l == ""))).length ∧
      (analyzeGroup acc tokens parsed).blank
        = acc.blank + (parsed.filter (fun l => l == "")).length := by
  unfold analyzeGroup llocUpdate
  have h1 := commentUpdate_sloc_blank tokens acc
  have h2 := docstringUpdate_sloc_blank (commentUpdate acc tokens) tokens parsed
  have h3 := slocUpdate_counts parsed (docstringUpdate (commentUpdate acc tokens) tokens parsed)
  have h4 := llocUpdate_sloc_blank (_split_tokens tokens OP ";")
    (slocUpdate (docstringUpdate (commentUpdate acc tokens) tokens parsed) parsed)
  omega

/-- Loop invariant of `analyze`: on a successful run over a line source,
`sloc` grows by the number of non-empty lines and `blank` by the number
of empty lines, provided the fuel covers the source (as it does in
`analyze`, where fuel is the number of lines). -/
theorem analyzeLoop_ok_counts (gen : Tokenizer) :
    ∀ (fuel : Nat) (lines : List String) (lineno : Nat) (acc acc' : Metrics),
      lines.length ≤ fuel →
      analyzeLoop gen fuel lineno acc lines = Except.ok acc' →
      acc'.sloc = acc.sloc + (lines.filter (fun l => !(l == ""))).length ∧
        acc'.blank = acc.blank + (lines.filter (fun l => l == "")).length := by
  intro fuel
  induction fuel with
  | zero =>
    intro lines lineno acc acc' hlen h
    cases lines with
    | nil =>
      simp only [analyzeLoop] at h
      cases h
      simp
    | cons l ls => simp at hlen
  | succ fuel ih =>
    intro lines lineno acc acc' hlen h
    cases lines with
    | nil =>
      simp only [analyzeLoop] at h
      cases h
      simp
    | cons line rest =>
      simp only [analyzeLoop] at h
      cases hget : _get_all_tokens gen line rest with
      | none => rw [hget] at h; simp at h
      | some trip =>
        obtain ⟨tokens, parsed, remaining⟩ := trip
        rw [hget] at h
        obtain ⟨u, hu, hur⟩ := _get_all_tokens_spec gen line rest tokens parsed remaining hget
        have hrem : remaining.length ≤ fuel := by
          have := _get_all_tokens_rem_le gen line rest tokens parsed remaining hget
          simp at hlen
          omega
        have hrec := ih remaining (lineno + 1) (analyzeGroup acc tokens parsed) acc' hrem h
        have hgrp := analyzeGroup_sloc_blank acc tokens parsed
        have hsplit :
            ∀ p : String → Bool,
              ((line :: rest).filter p).length
                = (parsed.filter p).length + (remaining.filter p).length := by
          intro p
          rw [hu, ← hur, ← List.cons_append, List.filter_append, List.length_append]
        rw [hsplit (fun l => !(l == "")), hsplit (fun l => l == "")]
        omega

/-- The error value of the loop of `analyze` is the enumerate counter: it
starts at the initial `lineno` and advances once per assembled token
group, so on failure it lies between the initial counter and the counter
plus the number of remaining lines. -/
theorem analyzeLoop_error_bounds (gen : Tokenizer) :
    ∀ (fuel : Nat) (lines : List String) (lineno n : Nat) (acc : Metrics),
      analyzeLoop gen fuel lineno acc lines = Except.error n →
      lineno ≤ n ∧ n < lineno + lines.length := by
  intro fuel
  induction fuel with
  | zero =>
    intro lines lineno n acc h
    cases lines with
    | nil => simp [analyzeLoop] at h
    | cons l ls =>
      simp only [analyzeLoop] at h
      cases h
      simp
  | succ fuel ih =>
    intro lines lineno n acc h
    cases lines with
    | nil => simp [analyzeLoop] at h
    | cons line rest =>
      simp only [analyzeLoop] at h
      cases hget : _get_all_tokens gen line rest with
      | none =>
        rw [hget] at h
        cases h
        simp
      | some trip =>
        obtain ⟨tokens, parsed, remaining⟩ := trip
        rw [hget] at h
        have hrem := _get_all_tokens_rem_le gen line rest tokens parsed remaining hget
        have := ih remaining (lineno + 1) n (analyzeGroup acc tokens parsed) h
        simp
        omega

/-- Inversion of a successful `analyze` call: the record is built from
the final accumulator of the loop, with `loc` derived by subtraction. -/
theorem analyze_ok_elim (gen : Tokenizer) (src : String) (m : Module)
    (h : analyze gen src = Except.ok m) :
    ∃ a : Metrics,
      analyzeLoop gen ((splitlines src).map pyStrip).length 1 Metrics.init
          ((splitlines src).map pyStrip) = Except.ok a ∧
        m = ⟨(a.sloc : Int) - (a.multi : Int) - (a.single_comments : Int),
          a.lloc, a.sloc, a.comments, a.multi, a.blank, a.single_comments⟩ := by
  unfold analyze at h
  cases hloop : analyzeLoop gen ((splitlines src).map pyStrip).length 1 Metrics.init
      ((splitlines src).map pyStrip) with
  | error n => rw [hloop] at h; simp at h
  | ok a =>
    rw [hloop] at h
    simp at h
    exact ⟨a, rfl, h.symm⟩

/-- Inversion of a failing `analyze` call: the error comes from the loop
with the counter started at 1. -/
theorem analyze_error_elim (gen : Tokenizer) (src : String) (n : Nat)
    (h : analyze gen src = Except.error n) :
    analyzeLoop gen ((splitlines src).map pyStrip).length 1 Metrics.init
      ((splitlines src).map pyStrip) = Except.error n := by
  unfold analyze at h
  cases hloop : analyzeLoop gen ((splitlines src).map pyStrip).length 1 Metrics.init
      ((splitlines src).map pyStrip) with
  | error k => rw [hloop] at h; simp at h; rw [h]
  | ok a => rw [hloop] at h; simp at h

/-! Result records of the concrete runs used by the claims. -/

/-- Record returned by `analyze` on the empty source. -/
def mEmpty : Module := ⟨0, 0, 0, 0, 0, 0, 0⟩

/-- Record returned by `analyze` on the source `# comment\n`: the
comment line is non-empty, so it is counted in `sloc`, and
`loc = 1 - 0 - 1 = 0`. -/
def mComment : Module := ⟨0, 0, 1, 1, 0, 0, 1⟩

/-- Record returned by `analyze` on the source `if True: x = 1\n`. -/
def mInline : Module := ⟨1, 2, 1, 0, 0, 0, 0⟩

/-- Record returned by `analyze` on the source `a = 1; b = 2\n`. -/
def mSemi : Module := ⟨1, 2, 1, 0, 0, 0, 0⟩

/-- Record returned by `analyze` on a three-line column-0 triple-quoted
string statement: `multi = 3`, `single_comments = 0`, and the group
contributes 1 to `lloc`, giving `loc = 3 - 3 - 0 = 0`. -/
def mTriple : Module := ⟨0, 1, 3, 0, 3, 0, 0⟩

/-! Claim theorems. -/

/-- Claim C1: whenever `analyze` returns a result record, the derived
field satisfies `loc = sloc - multi - single_comments`, where `sloc`,
`multi` and `single_comments` are the final accumulator values of that
call (they are returned unchanged in the record). -/
theorem claim1_loc_derivation (gen : Tokenizer) (src : String) (m : Module)
    (h : analyze gen src = Except.ok m) :
    m.loc = (m.sloc : Int) - (m.multi : Int) - (m.single_comments : Int) := by
  obtain ⟨a, -, hm⟩ := analyze_ok_elim gen src m h
  subst hm
  rfl

/-- Witness for C1 at the empty source, whose result record is `mEmpty`. -/
theorem claim1_loc_derivation_witness :
    mEmpty.loc = (mEmpty.sloc : Int) - (mEmpty.multi : Int) - (mEmpty.single_comments : Int) :=
  claim1_loc_derivation pyTokenize "" mEmpty rfl

/-- Claim C2: the equation `sloc + blank + multi + single_comments = loc`
documented in the docstring of `analyze` (line 166 of the source) is
violated by the computation of line 213 (`loc = sloc - multi -
single_comments`).  On the source `# comment\n` the code returns
`sloc = 1`, `blank = 0`, `multi = 0`, `single_comments = 1` and `loc = 0`,
while the documented equation demands `loc = 2`: the code contradicts its
own documentation. -/
theorem claim2_documented_equation_code_bug :
    analyze pyTokenize "# comment\n" = Except.ok mComment ∧
      ¬ ((mComment.sloc : Int) + (mComment.blank : Int) + (mComment.multi : Int)
          + (mComment.single_comments : Int) = mComment.loc) :=
  ⟨rfl, by decide⟩

/-- Claim C3: on every successful run all counters are non-negative, and
every physical line is counted in exactly one of `sloc` (non-empty after
stripping) and `blank` (empty after stripping), so `sloc + blank` is the
number of physical lines. -/
theorem claim3_line_partition (gen : Tokenizer) (src : String) (m : Module)
    (h : analyze gen src = Except.ok m) :
    0 ≤ m.sloc ∧ 0 ≤ m.blank ∧ 0 ≤ m.multi ∧ 0 ≤ m.single_comments ∧ 0 ≤ m.lloc ∧
      m.sloc = ((splitlines src).filter (fun l => !(pyStrip l == ""))).length ∧
      m.blank = ((splitlines src).filter (fun l => pyStrip l == "")).length ∧
      m.sloc + m.blank = (splitlines src).length := by
  obtain ⟨a, hloop, hm⟩ := analyze_ok_elim gen src m h
  have hcounts := analyzeLoop_ok_counts gen ((splitlines src).map pyStrip).length
    ((splitlines src).map pyStrip) 1 Metrics.init a (le_refl _) hloop
  have h1 := filter_map_length pyStrip (fun l => !(l == "")) (splitlines src)
  have h2 := filter_map_length pyStrip (fun l => l == "") (splitlines src)
  have h3 := filter_empty_partition ((splitlines src).map pyStrip)
  have hlen : ((splitlines src).map pyStrip).length = (splitlines src).length :=
    List.length_map _ _
  subst hm
  simp only [Metrics.init] at hcounts
  refine ⟨Nat.zero_le _, Nat.zero_le _, Nat.zero_le _, Nat.zero_le _, Nat.zero_le _, ?_, ?_, ?_⟩ <;>
    dsimp only <;> omega

/-- Witness for C3 on the source `# comment\n`, whose record is
`mComment`. -/
theorem claim3_line_partition_witness :
    0 ≤ mComment.sloc ∧ 0 ≤ mComment.blank ∧ 0 ≤ mComment.multi ∧
      0 ≤ mComment.single_comments ∧ 0 ≤ mComment.lloc ∧
      mComment.sloc = ((splitlines "# comment\n").filter (fun l => !(pyStrip l == ""))).length ∧
      mComment.blank = ((splitlines "# comment\n").filter (fun l => pyStrip l == "")).length ∧
      mComment.sloc + mComment.blank = (splitlines "# comment\n").length :=
  claim3_line_partition pyTokenize "# comment\n" mComment rfl

/-- Counterexample for C4: on the source `"""a`, `b"""`, `(x` the unit
that cannot be completed starts at physical line 3 (the line `(x`), but
the reported number is 2, because the counter of `enumerate(lines, 1)`
advances once per assembled token group and the first group spans two
physical lines. -/
theorem claim4_lineno_counterexample :
    analyze pyTokenize "\"\"\"a\nb\"\"\"\n(x\n" = Except.error 2 ∧ (2 : Nat) ≠ 3 :=
  ⟨rfl, by decide⟩

/-- Claim C4 as amended: when the line source is exhausted mid-assembly,
`analyze` fails with a structured error whose number is the 1-based
index of the token group whose assembly failed (it advances once per
assembled group, not once per physical line, so it lies between 1 and
the number of physical lines but can undercount the physical start line
of the failing unit), and no result record is returned on that path. -/
theorem claim4_error_group_counter (gen : Tokenizer) (src : String) (n : Nat) (m : Module)
    (h : analyze gen src = Except.error n) :
    (1 ≤ n ∧ n ≤ (splitlines src).length) ∧ analyze gen src ≠ Except.ok m := by
  have herr := analyze_error_elim gen src n h
  have hb := analyzeLoop_error_bounds gen ((splitlines src).map pyStrip).length
    ((splitlines src).map pyStrip) 1 n Metrics.init herr
  have hlen : ((splitlines src).map pyStrip).length = (splitlines src).length :=
    List.length_map _ _
  refine ⟨⟨hb.1, by omega⟩, ?_⟩
  intro hok
  rw [h] at hok
  simp at hok

/-- Witness for C4 on the truncated source of the counterexample. -/
theorem claim4_error_group_counter_witness :
    (1 ≤ 2 ∧ 2 ≤ (splitlines "\"\"\"a\nb\"\"\"\n(x\n").length) ∧
      analyze pyTokenize "\"\"\"a\nb\"\"\"\n(x\n" ≠ Except.ok mEmpty :=
  claim4_error_group_counter pyTokenize "\"\"\"a\nb\"\"\"\n(x\n" 2 mEmpty rfl

/-- Claim C5: a comment-stripped statement segment containing a colon
operator token contributes 1 logical line when the rightmost colon is
the second-to-last token of the stripped segment, and 2 otherwise; and
the input `if True: x = 1\n` yields `lloc = 2` and `sloc = 1`. -/
theorem claim5_colon_rule :
    (∀ (ts : List Token) (p : Nat),
        _find (_less_tokens ts [COMMENT]) OP ":" = some p →
        logicalAux ts =
          if (p : Int) = ((_less_tokens ts [COMMENT]).length : Int) - 2 then 1 else 2) ∧
      analyze pyTokenize "if True: x = 1\n" = Except.ok mInline := by
  constructor
  · intro ts p hfind
    unfold logicalAux
    dsimp only
    rw [hfind]
    dsimp only
    split_ifs <;> rfl
  · rfl

/-- Witness for C5 on the token group of `if True: x = 1`, whose
rightmost colon sits at position 2 of the 8-token stripped segment. -/
theorem claim5_colon_rule_witness :
    logicalAux toksIfTrue =
      if ((2 : Nat) : Int) = ((_less_tokens toksIfTrue [COMMENT]).length : Int) - 2
      then 1 else 2 :=
  claim5_colon_rule.1 toksIfTrue 2 rfl

/-- Counterexample for C6: the claim states `sloc = 0` for the source
`# comment\n`, but the comment line is non-empty after stripping, so the
blank/source loop counts it in `sloc`, which is 1. -/
theorem claim6_sloc_counterexample :
    analyze pyTokenize "# comment\n" = Except.ok mComment ∧ mComment.sloc ≠ 0 :=
  ⟨rfl, by decide⟩

/-- Claim C6 as amended: on the source `# comment\n` the code returns
`comments = 1`, `single_comments = 1`, `lloc = 0` and `sloc = 1` (the
non-blank comment line is counted in `sloc`; `loc = 0` after the
subtraction). -/
theorem claim6_comment_line_metrics :
    analyze pyTokenize "# comment\n" = Except.ok mComment := rfl

/-- Counterexample for C7: the claim states that a three-line column-0
triple-quoted string group contributes 0 to `lloc`, but the STRING and
NEWLINE tokens survive the stripping of NL and ENDMARKER tokens, so the
segment contributes 1: the file consists of this single group and its
`lloc` is 1, not 0. -/
theorem claim7_lloc_counterexample :
    analyze pyTokenize "\"\"\"a\nb\nc\"\"\"\n" = Except.ok mTriple ∧ mTriple.lloc ≠ 0 :=
  ⟨rfl, by decide⟩

/-- Claim C7 as amended: a column-0 triple-quoted string statement
spanning 3 non-empty physical lines yields `multi = 3` and
`single_comments = 0`, and its token group contributes 1 to `lloc` (the
string statement counts as one logical line). -/
theorem claim7_docstring_metrics :
    analyze pyTokenize "\"\"\"a\nb\nc\"\"\"\n" = Except.ok mTriple ∧
      _logical toksTriple3 = 1 :=
  ⟨rfl, rfl⟩

/-- Claim C8: the source `a = 1; b = 2\n` yields `lloc = 2` and
`sloc = 1`; the token group is split on the semicolon operator token and
each of the two resulting segments contributes 1 logical line. -/
theorem claim8_semicolon_split :
    analyze pyTokenize "a = 1; b = 2\n" = Except.ok mSemi ∧
      (_split_tokens toksSemi OP ";").map _logical = [1, 1] :=
  ⟨rfl, rfl⟩

/-- Claim C9: `analyze` is deterministic: two runs on identical text
yield identical result records. -/
theorem claim9_deterministic (gen : Tokenizer) (src : String) (m₁ m₂ : Module)
    (h₁ : analyze gen src = Except.ok m₁) (h₂ : analyze gen src = Except.ok m₂) :
    m₁ = m₂ := by
  rw [h₁] at h₂
  injection h₂

/-- Witness for C9 on the source `# comment\n`. -/
theorem claim9_deterministic_witness : mComment = mComment :=
  claim9_deterministic pyTokenize "# comment\n" mComment mComment rfl rfl

/-- Claim C10: `analyze` strips every physical line before tokenizing,
so two sources whose line lists agree after stripping (same number of
lines, corresponding lines differing only in leading and trailing
whitespace) produce identical outcomes; in particular an indented
comment line is tokenized at column 0 and counted in `single_comments`
exactly like an unindented one. -/
theorem claim10_strip_invariance :
    (∀ (gen : Tokenizer) (s₁ s₂ : String),
        (splitlines s₁).map pyStrip = (splitlines s₂).map pyStrip →
        analyze gen s₁ = analyze gen s₂) ∧
      analyze pyTokenize "   # comment\n" = Except.ok mComment := by
  constructor
  · intro gen s₁ s₂ hss
    unfold analyze
    rw [hss]
  · rfl

/-- Witness for C10 on an indented and an unindented comment line. -/
theorem claim10_strip_invariance_witness :
    analyze pyTokenize "   # comment\n" = analyze pyTokenize "# comment\n" :=
  claim10_strip_invariance.1 pyTokenize "   # comment\n" "# comment\n" (by decide)

end Radon
